import Mathlib

/-!
Verification development for the zyphr repository: a distributed HTTP
circuit breaker.  The repository contains two variants of the core class:

* `src/src/zyphr.ts` — the circuit state (CLOSED / OPEN / HALF_OPEN with
  failure and success counters) is kept as a JSON record in the shared
  store; `fireRequest` gates calls, dispatches through `request`, and
  records outcomes via `recordSuccess` / `recordFailure`.  Modelled in
  namespace `Zyphr`.

* `src/unnamed/part_000` — a global-gate variant: breaker transition
  events broadcast a phase string to a shared key with a TTL, and
  `handleRequest` checks `isGloballyOpen` before firing the local
  breaker.  Modelled in namespace `ZyphrG`.

Effects are made explicit: store writes, queue additions, whether the
transport adapter was called, and whether a queue drain was triggered are
returned as data.
-/

/-- A job stored in the replay queue (`JobData` in both source files);
the `data`/`config` payload fields are irrelevant to the claims and
elided. -/
structure JobData where
  method : String
  url : String
deriving DecidableEq

namespace Zyphr

/-- The `state` field of the circuit record: the string values
`'CLOSED' | 'OPEN' | 'HALF_OPEN'` used in `src/src/zyphr.ts`. -/
inductive Phase
  | CLOSED
  | OPEN
  | HALF_OPEN
deriving DecidableEq

/-- The circuit record stored by `getCircuitState`/`setCircuitState`
(`src/src/zyphr.ts` lines 27-35). -/
structure CircuitState where
  state : Phase
  failureCount : Nat
  successCount : Nat
  lastFailureTime : Option Int
deriving DecidableEq

/-- The default record returned by `getCircuitState` when the key is
absent: `{ state: 'CLOSED', failureCount: 0, successCount: 0,
lastFailureTime: null }`. -/
def initialCircuitState : CircuitState :=
  { state := Phase.CLOSED, failureCount := 0, successCount := 0, lastFailureTime := none }

/-- The `ZyphrOptions` of `src/src/zyphr.ts` (the fields the core logic
reads). -/
structure Options where
  failureThreshold : Nat
  successThreshold : Nat
  resetTimeout : Int
  scenario : Nat
deriving DecidableEq

/-- Errors `request` can throw: the `'Invalid method'` default branch, or
a downstream transport failure propagated from axios. -/
inductive ReqError
  | invalidMethod
  | downstream
deriving DecidableEq

/-- Outcome of one transport-adapter call; `transportOk` is the
downstream behaviour for this call. -/
def transportResult (transportOk : Bool) : Except ReqError Unit :=
  if transportOk then Except.ok () else Except.error ReqError.downstream

/-- `Zyphr.request` (`src/src/zyphr.ts` lines 113-126): a switch on the
method string dispatching to `axios.get/post/put/delete`, with a default
branch throwing `'Invalid method'`. -/
def request (transportOk : Bool) (method : String) : Except ReqError Unit :=
  if method == "get" then transportResult transportOk
  else if method == "post" then transportResult transportOk
  else if method == "put" then transportResult transportOk
  else if method == "delete" then transportResult transportOk
  else Except.error ReqError.invalidMethod

/-- The four method strings the switch in `request` dispatches on. -/
def validMethod (method : String) : Bool :=
  method == "get" || method == "post" || method == "put" || method == "delete"

/-- Result of `recordSuccess`/`recordFailure`: the updated record, whether
`processQueue` was triggered, and the sequence of `setCircuitState`
writes performed. -/
structure RecordOut where
  state : CircuitState
  drained : Bool
  writes : List CircuitState
deriving DecidableEq

/-- `Zyphr.recordSuccess` (`src/src/zyphr.ts` lines 128-139):
`failureCount` is zeroed; in HALF_OPEN, `successCount` is incremented and
on reaching `successThreshold` the state closes, `successCount` resets
and `processQueue()` runs; the record is then persisted unconditionally. -/
def recordSuccess (opts : Options) (cs : CircuitState) : RecordOut :=
  let cs1 := { cs with failureCount := 0 }
  if cs1.state = Phase.HALF_OPEN then
    let cs2 := { cs1 with successCount := cs1.successCount + 1 }
    if opts.successThreshold ≤ cs2.successCount then
      let cs3 := { cs2 with state := Phase.CLOSED, successCount := 0 }
      { state := cs3, drained := true, writes := [cs3] }
    else
      { state := cs2, drained := false, writes := [cs2] }
  else
    { state := cs1, drained := false, writes := [cs1] }

/-- `Zyphr.recordFailure` (`src/src/zyphr.ts` lines 141-148):
`failureCount` is incremented and `lastFailureTime` stamped; the state
opens when HALF_OPEN, or when CLOSED with the incremented count strictly
above `failureThreshold`; the record is then persisted unconditionally. -/
def recordFailure (opts : Options) (now : Int) (cs : CircuitState) : RecordOut :=
  let cs1 := { cs with failureCount := cs.failureCount + 1, lastFailureTime := some now }
  let cs2 :=
    if cs1.state = Phase.HALF_OPEN ∨
        (cs1.state = Phase.CLOSED ∧ opts.failureThreshold < cs1.failureCount) then
      { cs1 with state := Phase.OPEN }
    else cs1
  { state := cs2, drained := false, writes := [cs2] }

/-- A run of consecutive recorded failures, each stamped with its time. -/
def runFailures (opts : Options) (ts : List Int) (cs : CircuitState) : CircuitState :=
  ts.foldl (fun s t => (recordFailure opts t s).state) cs

/-- How one `fireRequest` call terminates. -/
inductive FireResult
  | gatedError
  | gatedQueued
  | ok
  | transportError
  | invalidMethodError
deriving DecidableEq

/-- Observable outcome of one `fireRequest` call: its result, the final
circuit record, jobs added to the replay queue, whether a queue drain was
triggered, whether the transport adapter was reached, and the
`setCircuitState` writes in order. -/
structure FireOut where
  result : FireResult
  state : CircuitState
  queued : List JobData
  drained : Bool
  transportCalled : Bool
  writes : List CircuitState
deriving DecidableEq

/-- JavaScript arithmetic on `Date.now() - lastFailureTime`: a `null`
timestamp coerces to 0. -/
def timeVal : Option Int → Int
  | none => 0
  | some t => t

/-- The `try`/`catch` tail of `fireRequest` (`src/src/zyphr.ts` lines
103-110): dispatch through `request`, then `recordSuccess` on success or
`recordFailure` on any thrown error (the downstream and invalid-method
errors are rethrown to the caller).  The transport adapter is reached
exactly when the method string hits one of the four axios branches. -/
def attempt (opts : Options) (now : Int) (transportOk : Bool)
    (method : String) (cs : CircuitState) (gateWrites : List CircuitState) : FireOut :=
  match request transportOk method with
  | Except.ok _ =>
      let r := recordSuccess opts cs
      { result := FireResult.ok, state := r.state, queued := [],
        drained := r.drained, transportCalled := true, writes := gateWrites ++ r.writes }
  | Except.error ReqError.downstream =>
      let r := recordFailure opts now cs
      { result := FireResult.transportError, state := r.state, queued := [],
        drained := false, transportCalled := true, writes := gateWrites ++ r.writes }
  | Except.error ReqError.invalidMethod =>
      let r := recordFailure opts now cs
      { result := FireResult.invalidMethodError, state := r.state, queued := [],
        drained := false, transportCalled := false, writes := gateWrites ++ r.writes }

/-- `Zyphr.fireRequest` (`src/src/zyphr.ts` lines 86-111).  If the stored
state is OPEN: after more than `resetTimeout` ms since `lastFailureTime`
the record moves to HALF_OPEN, is persisted, and the call proceeds as a
probe; otherwise scenario 1 throws `'Circuit is open'`, scenario 2 adds
the job to the queue and throws the queued variant, and any other
scenario value falls through to the attempt. -/
def fireRequest (opts : Options) (now : Int) (transportOk : Bool)
    (method url : String) (cs : CircuitState) : FireOut :=
  if cs.state = Phase.OPEN then
    if opts.resetTimeout < now - timeVal cs.lastFailureTime then
      let cs2 := { cs with state := Phase.HALF_OPEN }
      attempt opts now transportOk method cs2 [cs2]
    else if opts.scenario = 1 then
      { result := FireResult.gatedError, state := cs, queued := [],
        drained := false, transportCalled := false, writes := [] }
    else if opts.scenario = 2 then
      { result := FireResult.gatedQueued, state := cs, queued := [⟨method, url⟩],
        drained := false, transportCalled := false, writes := [] }
    else
      attempt opts now transportOk method cs []
  else
    attempt opts now transportOk method cs []

/-- `Zyphr.get` (`src/src/zyphr.ts` line 157-159): fires the breaker with
the literal method string `'get'`. -/
def get (opts : Options) (now : Int) (transportOk : Bool)
    (url : String) (cs : CircuitState) : FireOut :=
  fireRequest opts now transportOk "get" url cs

/-- `Zyphr.post` (`src/src/zyphr.ts` line 161-163): fires the breaker
with the literal method string `'post'`. -/
def post (opts : Options) (now : Int) (transportOk : Bool)
    (url : String) (cs : CircuitState) : FireOut :=
  fireRequest opts now transportOk "post" url cs

/-- `Zyphr.put` (`src/src/zyphr.ts` line 165-167): fires the breaker with
the literal method string `'put'`. -/
def put (opts : Options) (now : Int) (transportOk : Bool)
    (url : String) (cs : CircuitState) : FireOut :=
  fireRequest opts now transportOk "put" url cs

/-- `Zyphr.delete` (`src/src/zyphr.ts` line 169-171): fires the breaker
with the literal method string `'delete'`. -/
def delete (opts : Options) (now : Int) (transportOk : Bool)
    (url : String) (cs : CircuitState) : FireOut :=
  fireRequest opts now transportOk "delete" url cs

/-- `Zyphr.processQueue` (`src/src/zyphr.ts` lines 150-155): every
currently waiting job is promoted, each exactly once, in order. -/
def processQueue (waiting : List JobData) : List JobData :=
  waiting

/-- The queue worker registered in the constructor (`src/src/zyphr.ts`
lines 52-55): its handler body is exactly `return this.request(...)`,
so a replayed job is dispatched directly to the transport; the circuit
record is not read or written and nothing is added back to the queue. -/
def queueWorker (transportOk : Bool) (job : JobData) (cs : CircuitState) :
    Except ReqError Unit × CircuitState × List JobData :=
  (request transportOk job.method, cs, [])

/-- Drain-and-replay pipeline: each promoted job is handed to the queue
worker once. -/
def drainReplay (transportOk : Bool) (waiting : List JobData) (cs : CircuitState) :
    List (JobData × Except ReqError Unit) :=
  (processQueue waiting).map (fun j => (j, (queueWorker transportOk j cs).1))

end Zyphr

namespace ZyphrG

/-- One `redis.set(key, value, 'EX', ttl)` call of `src/unnamed/part_000`. -/
structure GateWrite where
  key : String
  value : String
  ttlSeconds : Nat
deriving DecidableEq

/-- The opossum breaker transition events the constructor subscribes to
(`src/unnamed/part_000` lines 56-68). -/
inductive BreakerEvent
  | opened
  | halfOpened
  | closed
deriving DecidableEq

/-- The phase string each event handler broadcasts. -/
def phaseValue : BreakerEvent → String
  | BreakerEvent.opened => "OPEN"
  | BreakerEvent.halfOpened => "HALF_OPEN"
  | BreakerEvent.closed => "CLOSED"

/-- The broadcasting handlers (`src/unnamed/part_000` lines 56-68): each
transition performs exactly one shared-store write of the phase string
with the TTL, and the close handler additionally runs `processQueue`. -/
def onBreakerEvent (stateKey : String) (ttl : Nat) (e : BreakerEvent) :
    List GateWrite × Bool :=
  match e with
  | BreakerEvent.opened => ([⟨stateKey, "OPEN", ttl⟩], false)
  | BreakerEvent.halfOpened => ([⟨stateKey, "HALF_OPEN", ttl⟩], false)
  | BreakerEvent.closed => ([⟨stateKey, "CLOSED", ttl⟩], true)

/-- `Zyphr.isGloballyOpen` (`src/unnamed/part_000` lines 78-81): awaits
`redis.get(stateKey)` and compares the result with `"OPEN"`.  The read is
an `Except`: `ok none` is an absent key (nil reply), `ok (some v)` a
present value, and `error e` a rejected read, which propagates out of the
`await` unhandled. -/
def isGloballyOpen (readResult : Except String (Option String)) : Except String Bool :=
  match readResult with
  | Except.error e => Except.error e
  | Except.ok v => Except.ok (v == some "OPEN")

/-- A `this._breaker.fire(method, url, ...)` invocation. -/
structure BreakerCall where
  method : String
  url : String
deriving DecidableEq

/-- How one `handleRequest` call terminates. -/
inductive HandleResult
  | storeError
  | gatedError
  | gatedQueued
  | fired
deriving DecidableEq

/-- Observable outcome of one `handleRequest` call: its result, jobs
added to the replay queue, the breaker invocation if one was made, and
the shared-store writes performed (the request path performs none). -/
structure HandleOut where
  result : HandleResult
  queued : List JobData
  call : Option BreakerCall
  writes : List GateWrite
deriving DecidableEq

/-- `Zyphr.handleRequest` (`src/unnamed/part_000` lines 83-101): check
the global gate; when open, scenario `RETURN_ERROR` (1) throws
`'Circuit is globally open'`, and any other scenario adds the job to the
queue and throws the queued variant; when not open, the local breaker is
fired.  A rejected gate read propagates to the caller. -/
def handleRequest (scenario : Nat) (gateRead : Except String (Option String))
    (method url : String) : HandleOut :=
  match isGloballyOpen gateRead with
  | Except.error _ =>
      { result := HandleResult.storeError, queued := [], call := none, writes := [] }
  | Except.ok true =>
      if scenario = 1 then
        { result := HandleResult.gatedError, queued := [], call := none, writes := [] }
      else
        { result := HandleResult.gatedQueued, queued := [⟨method, url⟩],
          call := none, writes := [] }
  | Except.ok false =>
      { result := HandleResult.fired, queued := [], call := some ⟨method, url⟩, writes := [] }

/-- `Zyphr.processQueue` (`src/unnamed/part_000` lines 103-108): every
currently waiting job is promoted, each exactly once, in order. -/
def processQueue (waiting : List JobData) : List JobData :=
  waiting

/-- The queue worker registered in the constructor (`src/unnamed/part_000`
lines 70-74): its handler body is exactly
`return this._breaker.fire(method, url, data, config)` — the replayed job
re-enters through the local breaker. -/
def queueWorker (job : JobData) : BreakerCall :=
  ⟨job.method, job.url⟩

/-- Drain-and-replay pipeline: each promoted job is handed to the queue
worker once, producing one breaker invocation per waiting job. -/
def drainReplay (waiting : List JobData) : List BreakerCall :=
  (processQueue waiting).map queueWorker

end ZyphrG

/-! ## Sample configurations for concrete evaluations -/

/-- Sample configuration: thresholds 3/2, reset timeout 100 ms, fail-fast
scenario. -/
def sampleOptions : Zyphr.Options :=
  { failureThreshold := 3, successThreshold := 2, resetTimeout := 100, scenario := 1 }

/-- A HALF_OPEN circuit record with one recorded probe success. -/
def sampleHalfOpen : Zyphr.CircuitState :=
  { state := Zyphr.Phase.HALF_OPEN, failureCount := 0, successCount := 1,
    lastFailureTime := some 50 }

/-! ## Helper lemmas -/

namespace Zyphr

/-- On any of the four supported method strings, `request` dispatches to
the transport adapter. -/
theorem request_valid (transportOk : Bool) (method : String)
    (h : validMethod method = true) :
    request transportOk method = transportResult transportOk := by
  cases hg : (method == "get") <;> cases hp : (method == "post") <;>
    cases hpu : (method == "put") <;> cases hd : (method == "delete") <;>
    simp [validMethod, request, hg, hp, hpu, hd] at h ⊢

/-- An attempt on a supported method never ends in the invalid-method
error. -/
theorem attempt_valid_not_invalid (opts : Options) (now : Int) (transportOk : Bool)
    (method : String) (cs : CircuitState) (gw : List CircuitState)
    (h : request transportOk method = transportResult transportOk) :
    (attempt opts now transportOk method cs gw).result ≠ FireResult.invalidMethodError := by
  unfold attempt
  rw [h]
  unfold transportResult
  cases transportOk <;> simp

/-- `fireRequest` on a supported method never ends in the invalid-method
error. -/
theorem fireRequest_valid_not_invalid (opts : Options) (now : Int) (transportOk : Bool)
    (method url : String) (cs : CircuitState)
    (h : validMethod method = true) :
    (fireRequest opts now transportOk method url cs).result ≠ FireResult.invalidMethodError := by
  unfold fireRequest
  have hreq := request_valid transportOk method h
  split
  · split
    · exact attempt_valid_not_invalid _ _ _ _ _ _ hreq
    · split
      · simp
      · split
        · simp
        · exact attempt_valid_not_invalid _ _ _ _ _ _ hreq
  · exact attempt_valid_not_invalid _ _ _ _ _ _ hreq

end Zyphr

/-! ## Claims -/

/-- Claim C1: while the fleet gate reports OPEN, scenario RETURN_ERROR (1)
fails with the gated error and queues nothing, scenario QUEUE_REQUEST (2)
enqueues the job exactly once and fails with the gated-and-queued error,
and in neither case is the local breaker (hence the transport adapter)
invoked. -/
theorem c1_gated_requests (method url : String) :
    ZyphrG.handleRequest 1 (Except.ok (some "OPEN")) method url =
      { result := ZyphrG.HandleResult.gatedError, queued := [], call := none, writes := [] }
  ∧ ZyphrG.handleRequest 2 (Except.ok (some "OPEN")) method url =
      { result := ZyphrG.HandleResult.gatedQueued, queued := [⟨method, url⟩],
        call := none, writes := [] } := by
  constructor <;> rfl

/-- Claim C2 counterexample: a rejected store read propagates out of
`isGloballyOpen` instead of being treated as not-open. -/
theorem c2_read_failure_propagates :
    ZyphrG.isGloballyOpen (Except.error "read failed") ≠ Except.ok false := by
  intro h
  simp [ZyphrG.isGloballyOpen] at h

/-- Claim C2 amended: `isGloballyOpen` returns ok-true iff the shared
record is present with value OPEN; an absent key yields ok-false; but a
failed store read propagates as an error to the caller, it is not treated
as not-open. -/
theorem c2_isGloballyOpen_spec :
    (∀ v : Option String,
        ZyphrG.isGloballyOpen (Except.ok v) = Except.ok (v == some "OPEN"))
  ∧ ZyphrG.isGloballyOpen (Except.ok (some "OPEN")) = Except.ok true
  ∧ ZyphrG.isGloballyOpen (Except.ok none) = Except.ok false
  ∧ (∀ e : String, ZyphrG.isGloballyOpen (Except.error e) = Except.error e) :=
  ⟨fun _ => rfl, rfl, rfl, fun _ => rfl⟩

/-- Claim C4 counterexample: recording a failure in HALF_OPEN moves the
phase to OPEN but leaves `successCount` at its prior value 1 instead of
resetting it to 0. -/
theorem c4_successCount_not_reset :
    (Zyphr.recordFailure sampleOptions 60 sampleHalfOpen).state.state = Zyphr.Phase.OPEN
  ∧ (Zyphr.recordFailure sampleOptions 60 sampleHalfOpen).state.successCount ≠ 0 := by
  constructor <;> decide

/-- Claim C4 amended: from HALF_OPEN a single recorded failure transitions
immediately to OPEN; `successCount` is left unchanged rather than reset
to 0. -/
theorem c4_half_open_failure_opens (opts : Zyphr.Options) (now : Int)
    (cs : Zyphr.CircuitState) (h : cs.state = Zyphr.Phase.HALF_OPEN) :
    (Zyphr.recordFailure opts now cs).state.state = Zyphr.Phase.OPEN
  ∧ (Zyphr.recordFailure opts now cs).state.successCount = cs.successCount := by
  unfold Zyphr.recordFailure
  simp [h]

/-- Witness for the amended C4 at a concrete HALF_OPEN record. -/
theorem c4_half_open_failure_opens_witness :
    (Zyphr.recordFailure sampleOptions 60 sampleHalfOpen).state.state = Zyphr.Phase.OPEN
  ∧ (Zyphr.recordFailure sampleOptions 60 sampleHalfOpen).state.successCount
      = sampleHalfOpen.successCount :=
  c4_half_open_failure_opens sampleOptions 60 sampleHalfOpen rfl

/-- Claim C5: from HALF_OPEN each recorded success increments
`successCount`; when the incremented count reaches `successThreshold` the
record transitions to CLOSED, both counters reset to 0 and the
replay-queue drain is triggered. -/
theorem c5_half_open_success (opts : Zyphr.Options) (cs : Zyphr.CircuitState)
    (h : cs.state = Zyphr.Phase.HALF_OPEN) :
    (opts.successThreshold ≤ cs.successCount + 1 →
        (Zyphr.recordSuccess opts cs).state =
          { state := Zyphr.Phase.CLOSED, failureCount := 0, successCount := 0,
            lastFailureTime := cs.lastFailureTime }
      ∧ (Zyphr.recordSuccess opts cs).drained = true)
  ∧ (cs.successCount + 1 < opts.successThreshold →
        (Zyphr.recordSuccess opts cs).state =
          { state := Zyphr.Phase.HALF_OPEN, failureCount := 0,
            successCount := cs.successCount + 1, lastFailureTime := cs.lastFailureTime }
      ∧ (Zyphr.recordSuccess opts cs).drained = false) := by
  unfold Zyphr.recordSuccess
  constructor
  · intro hle
    simp [h, hle]
  · intro hlt
    simp [h, Nat.not_le.mpr hlt]

/-- Witness for C5: with `successThreshold` 2 and one prior probe
success, a further success closes the circuit, resets both counters and
triggers the drain. -/
theorem c5_half_open_success_witness :
    (Zyphr.recordSuccess sampleOptions sampleHalfOpen).state =
      { state := Zyphr.Phase.CLOSED, failureCount := 0, successCount := 0,
        lastFailureTime := some 50 }
  ∧ (Zyphr.recordSuccess sampleOptions sampleHalfOpen).drained = true :=
  (c5_half_open_success sampleOptions sampleHalfOpen rfl).1 (by decide)

/-- Claim C10: every public method passes one of exactly the four
supported method strings to the request dispatcher, so no call made
through get/post/put/delete ever fails with the invalid-method error. -/
theorem c10_public_methods_never_invalid (opts : Zyphr.Options) (now : Int)
    (transportOk : Bool) (url : String) (cs : Zyphr.CircuitState) :
    (Zyphr.get opts now transportOk url cs).result ≠ Zyphr.FireResult.invalidMethodError
  ∧ (Zyphr.post opts now transportOk url cs).result ≠ Zyphr.FireResult.invalidMethodError
  ∧ (Zyphr.put opts now transportOk url cs).result ≠ Zyphr.FireResult.invalidMethodError
  ∧ (Zyphr.delete opts now transportOk url cs).result ≠ Zyphr.FireResult.invalidMethodError
  ∧ Zyphr.validMethod "get" = true ∧ Zyphr.validMethod "post" = true
  ∧ Zyphr.validMethod "put" = true ∧ Zyphr.validMethod "delete" = true :=
  ⟨Zyphr.fireRequest_valid_not_invalid opts now transportOk "get" url cs rfl,
   Zyphr.fireRequest_valid_not_invalid opts now transportOk "post" url cs rfl,
   Zyphr.fireRequest_valid_not_invalid opts now transportOk "put" url cs rfl,
   Zyphr.fireRequest_valid_not_invalid opts now transportOk "delete" url cs rfl,
   rfl, rfl, rfl, rfl⟩

/-! ## Failure-run lemmas for the local breaker -/

namespace Zyphr

/-- Every recorded failure increments `failureCount` by one. -/
theorem recordFailure_count (opts : Options) (now : Int) (cs : CircuitState) :
    (recordFailure opts now cs).state.failureCount = cs.failureCount + 1 := by
  simp only [recordFailure]
  split <;> rfl

/-- Every recorded failure stamps `lastFailureTime` with the failure
instant. -/
theorem recordFailure_time (opts : Options) (now : Int) (cs : CircuitState) :
    (recordFailure opts now cs).state.lastFailureTime = some now := by
  simp only [recordFailure]
  split <;> rfl

/-- A recorded failure on an OPEN record leaves the phase OPEN: no second
transition occurs. -/
theorem recordFailure_open (opts : Options) (now : Int) (cs : CircuitState)
    (h : cs.state = Phase.OPEN) :
    (recordFailure opts now cs).state.state = Phase.OPEN := by
  unfold recordFailure
  simp [h]

/-- A recorded failure on a CLOSED record opens the circuit exactly when
the incremented count strictly exceeds the threshold. -/
theorem recordFailure_closed (opts : Options) (now : Int) (cs : CircuitState)
    (h : cs.state = Phase.CLOSED) :
    (recordFailure opts now cs).state.state =
      (if cs.failureCount + 1 ≤ opts.failureThreshold then Phase.CLOSED else Phase.OPEN) := by
  unfold recordFailure
  rcases Nat.lt_or_ge opts.failureThreshold (cs.failureCount + 1) with hth | hth
  · simp [h, hth, Nat.not_le.mpr hth]
  · simp [h, Nat.not_lt.mpr hth, hth]

theorem runFailures_nil (opts : Options) (cs : CircuitState) :
    runFailures opts [] cs = cs := rfl

theorem runFailures_cons (opts : Options) (t : Int) (ts : List Int) (cs : CircuitState) :
    runFailures opts (t :: ts) cs = runFailures opts ts (recordFailure opts t cs).state := rfl

/-- A failure run starting OPEN stays OPEN while counting every failure. -/
theorem runFailures_open (opts : Options) (ts : List Int) (cs : CircuitState)
    (h : cs.state = Phase.OPEN) :
    (runFailures opts ts cs).state = Phase.OPEN ∧
    (runFailures opts ts cs).failureCount = cs.failureCount + ts.length := by
  induction ts generalizing cs with
  | nil => exact ⟨h, rfl⟩
  | cons t ts ih =>
      rw [runFailures_cons]
      have h1 := recordFailure_open opts t cs h
      have h2 := recordFailure_count opts t cs
      have hih := ih (recordFailure opts t cs).state h1
      refine ⟨hih.1, ?_⟩
      rw [hih.2, h2]
      simp [List.length_cons]
      omega

/-- A failure run starting CLOSED below the threshold counts every
failure and is CLOSED or OPEN according to whether the total stays within
the threshold. -/
theorem runFailures_closed (opts : Options) (ts : List Int) (cs : CircuitState)
    (h : cs.state = Phase.CLOSED) (hc : cs.failureCount ≤ opts.failureThreshold) :
    (runFailures opts ts cs).failureCount = cs.failureCount + ts.length ∧
    (runFailures opts ts cs).state =
      (if cs.failureCount + ts.length ≤ opts.failureThreshold
       then Phase.CLOSED else Phase.OPEN) := by
  induction ts generalizing cs with
  | nil =>
      refine ⟨rfl, ?_⟩
      simp [runFailures_nil, hc, h]
  | cons t ts ih =>
      have hcount := recordFailure_count opts t cs
      have hstate := recordFailure_closed opts t cs h
      have harith : cs.failureCount + (t :: ts).length = cs.failureCount + 1 + ts.length := by
        simp [List.length_cons]
        omega
      rw [runFailures_cons, harith]
      by_cases hth : cs.failureCount + 1 ≤ opts.failureThreshold
      · rw [if_pos hth] at hstate
        have hih := ih (recordFailure opts t cs).state hstate
          (by rw [hcount]; exact hth)
        refine ⟨?_, ?_⟩
        · rw [hih.1, hcount]
        · rw [hih.2, hcount]
      · rw [if_neg hth] at hstate
        have hop := runFailures_open opts ts (recordFailure opts t cs).state hstate
        refine ⟨?_, ?_⟩
        · rw [hop.2, hcount]
        · rw [hop.1, if_neg (by omega)]

/-- An attempt whose gate writes start with `w` reports `w` as its first
persisted record. -/
theorem attempt_writes_head (opts : Options) (now : Int) (transportOk : Bool)
    (method : String) (cs w : CircuitState) :
    (attempt opts now transportOk method cs [w]).writes.head? = some w := by
  unfold attempt
  cases hreq : request transportOk method with
  | ok _ => simp
  | error e => cases e <;> simp

/-- An attempt on a supported method reaches the transport adapter. -/
theorem attempt_transportCalled (opts : Options) (now : Int) (transportOk : Bool)
    (method : String) (cs : CircuitState) (gw : List CircuitState)
    (h : request transportOk method = transportResult transportOk) :
    (attempt opts now transportOk method cs gw).transportCalled = true := by
  unfold attempt
  rw [h]
  unfold transportResult
  cases transportOk <;> simp

end Zyphr

/-- Claim C3: starting CLOSED with zero failures, each recorded failure
increments `failureCount`, and after k consecutive failures the record is
CLOSED when k ≤ `failureThreshold` and OPEN when k > `failureThreshold`:
the transition to OPEN happens exactly once, at failure number
`failureThreshold` + 1, never earlier and never a second time. -/
theorem c3_failure_threshold (opts : Zyphr.Options) (ts : List Int) :
    (Zyphr.runFailures opts ts Zyphr.initialCircuitState).failureCount = ts.length
  ∧ (Zyphr.runFailures opts ts Zyphr.initialCircuitState).state =
      (if ts.length ≤ opts.failureThreshold then Zyphr.Phase.CLOSED else Zyphr.Phase.OPEN)
  ∧ (∀ now cs, (Zyphr.recordFailure opts now cs).state.failureCount = cs.failureCount + 1) := by
  have h := Zyphr.runFailures_closed opts ts Zyphr.initialCircuitState rfl (Nat.zero_le _)
  refine ⟨?_, ?_, fun now cs => Zyphr.recordFailure_count opts now cs⟩
  · rw [h.1]
    simp [Zyphr.initialCircuitState]
  · rw [h.2]
    simp [Zyphr.initialCircuitState]

/-- An OPEN circuit record as produced by the failure that opened it at
time 0 (four recorded failures against threshold 3). -/
def sampleOpen : Zyphr.CircuitState :=
  { state := Zyphr.Phase.OPEN, failureCount := 4, successCount := 0,
    lastFailureTime := some 0 }

/-- A CLOSED circuit record with one prior failure on record. -/
def sampleClosed : Zyphr.CircuitState :=
  { state := Zyphr.Phase.CLOSED, failureCount := 1, successCount := 0,
    lastFailureTime := some 5 }

/-- Claim C6: with a supported scenario (1 or 2), while the record is OPEN
no call reaches the transport adapter — and the record, including its
OPEN-entry timestamp, stays untouched — until more than `resetTimeout` ms
have elapsed since `lastFailureTime`; `recordFailure` stamps
`lastFailureTime` with the failure instant, which for the failure that
opened the circuit is the instant OPEN was entered, so the timeout is
measured from entering OPEN, not from later requests; once the timeout
has elapsed the record transitions to HALF_OPEN (the first persisted
write) and the call is attempted as a probe. -/
theorem c6_open_timing (opts : Zyphr.Options) (now : Int) (transportOk : Bool)
    (method url : String) (cs : Zyphr.CircuitState)
    (hs : opts.scenario = 1 ∨ opts.scenario = 2)
    (ho : cs.state = Zyphr.Phase.OPEN) :
    (¬ opts.resetTimeout < now - Zyphr.timeVal cs.lastFailureTime →
        (Zyphr.fireRequest opts now transportOk method url cs).transportCalled = false
      ∧ (Zyphr.fireRequest opts now transportOk method url cs).state = cs)
  ∧ (opts.resetTimeout < now - Zyphr.timeVal cs.lastFailureTime →
        (Zyphr.fireRequest opts now transportOk method url cs).writes.head? =
          some { cs with state := Zyphr.Phase.HALF_OPEN }
      ∧ (Zyphr.validMethod method = true →
          (Zyphr.fireRequest opts now transportOk method url cs).transportCalled = true))
  ∧ (∀ t : Int, ∀ cs2 : Zyphr.CircuitState,
        (Zyphr.recordFailure opts t cs2).state.lastFailureTime = some t) := by
  refine ⟨?_, ?_, fun t cs2 => Zyphr.recordFailure_time opts t cs2⟩
  · intro hnt
    unfold Zyphr.fireRequest
    rcases hs with h1 | h2
    · rw [if_pos ho, if_neg hnt, if_pos h1]
      exact ⟨rfl, rfl⟩
    · rw [if_pos ho, if_neg hnt]
      rw [h2]
      norm_num
  · intro ht
    have hfr : Zyphr.fireRequest opts now transportOk method url cs =
        Zyphr.attempt opts now transportOk method
          { cs with state := Zyphr.Phase.HALF_OPEN }
          [{ cs with state := Zyphr.Phase.HALF_OPEN }] := by
      unfold Zyphr.fireRequest
      rw [if_pos ho, if_pos ht]
    rw [hfr]
    exact ⟨Zyphr.attempt_writes_head _ _ _ _ _ _,
      fun hv => Zyphr.attempt_transportCalled _ _ _ _ _ _
        (Zyphr.request_valid transportOk method hv)⟩

/-- Witness for C6: with the OPEN-entry instant 0 and resetTimeout 100, a
call at time 50 is blocked without touching the record, and a call at
time 250 persists the HALF_OPEN transition and probes downstream. -/
theorem c6_open_timing_witness :
    ((Zyphr.fireRequest sampleOptions 50 true "get" "/data" sampleOpen).transportCalled = false
      ∧ (Zyphr.fireRequest sampleOptions 50 true "get" "/data" sampleOpen).state = sampleOpen)
  ∧ (Zyphr.fireRequest sampleOptions 250 true "get" "/data" sampleOpen).writes.head? =
      some { sampleOpen with state := Zyphr.Phase.HALF_OPEN } :=
  ⟨(c6_open_timing sampleOptions 50 true "get" "/data" sampleOpen
      (Or.inl rfl) rfl).1 (by decide),
   ((c6_open_timing sampleOptions 250 true "get" "/data" sampleOpen
      (Or.inl rfl) rfl).2.1 (by decide)).1⟩

/-- Claim C7 counterexample: in `src/src/zyphr.ts` a recorded success on a
CLOSED record persists the shared circuit record although no phase
transition occurred — the shared key is written on every recorded
outcome, not only on transitions. -/
theorem c7_write_without_transition :
    (Zyphr.recordSuccess sampleOptions sampleClosed).writes ≠ []
  ∧ (Zyphr.recordSuccess sampleOptions sampleClosed).state.state = sampleClosed.state := by
  constructor <;> decide

/-- Claim C7 amended: in the gate variant (`src/unnamed/part_000`) each
breaker transition event performs exactly one shared-key write holding
the new phase string with the TTL reset, and the request path performs
no shared-store write; in the `src/src/zyphr.ts` variant, by contrast,
every recordSuccess/recordFailure call persists the circuit record once,
whether or not the phase changed. -/
theorem c7_gate_writes (stateKey : String) (ttl : Nat) (e : ZyphrG.BreakerEvent) :
    (ZyphrG.onBreakerEvent stateKey ttl e).1 =
      [{ key := stateKey, value := ZyphrG.phaseValue e, ttlSeconds := ttl }]
  ∧ (∀ scenario gateRead method url,
        (ZyphrG.handleRequest scenario gateRead method url).writes = [])
  ∧ (∀ opts cs, (Zyphr.recordSuccess opts cs).writes = [(Zyphr.recordSuccess opts cs).state])
  ∧ (∀ opts now cs,
        (Zyphr.recordFailure opts now cs).writes = [(Zyphr.recordFailure opts now cs).state]) := by
  refine ⟨?_, ?_, ?_, ?_⟩
  · cases e <;> rfl
  · intro scenario gateRead method url
    unfold ZyphrG.handleRequest
    cases hg : ZyphrG.isGloballyOpen gateRead with
    | error e => rfl
    | ok b =>
        cases b with
        | true =>
            by_cases hsc : scenario = 1
            · rw [if_pos hsc]
            · rw [if_neg hsc]
        | false => rfl
  · intro opts cs
    simp only [Zyphr.recordSuccess]
    split
    · split <;> rfl
    · rfl
  · intro opts now cs
    simp only [Zyphr.recordFailure]

/-- Claim C8 counterexample: the `src/src/zyphr.ts` queue worker replays
a job through `request` directly; a failed replay leaves the circuit
record untouched, so its outcome does not feed the breaker's failure
accounting. -/
theorem c8_replay_bypasses_breaker :
    (Zyphr.queueWorker false ⟨"get", "/data"⟩ Zyphr.initialCircuitState).1 =
      Except.error Zyphr.ReqError.downstream
  ∧ (Zyphr.queueWorker false ⟨"get", "/data"⟩ Zyphr.initialCircuitState).2.1 =
      Zyphr.initialCircuitState
  ∧ (Zyphr.queueWorker false ⟨"get", "/data"⟩ Zyphr.initialCircuitState).2.1.failureCount ≠
      Zyphr.initialCircuitState.failureCount + 1 :=
  ⟨rfl, rfl, by decide⟩

/-- Claim C8 amended: after the close transition every waiting item is
resubmitted exactly once, in order, and a failed replay is never added
back to the queue; in the `src/unnamed/part_000` variant the worker
re-enters through the local breaker — the same invocation the dispatcher
makes when not gated — so replay outcomes feed its accounting, while in
the `src/src/zyphr.ts` variant the worker dispatches directly to the
transport and leaves the circuit record untouched. -/
theorem c8_drain_replay (transportOk : Bool) (waiting : List JobData)
    (cs : Zyphr.CircuitState) :
    (Zyphr.drainReplay transportOk waiting cs).map Prod.fst = waiting
  ∧ (∀ job, (Zyphr.queueWorker transportOk job cs).2.2 = ([] : List JobData))
  ∧ (∀ job, (Zyphr.queueWorker transportOk job cs).2.1 = cs)
  ∧ ZyphrG.drainReplay waiting = waiting.map ZyphrG.queueWorker
  ∧ (∀ job : JobData,
        (ZyphrG.handleRequest 2 (Except.ok (some "CLOSED")) job.method job.url).call =
          some (ZyphrG.queueWorker job)) := by
  refine ⟨?_, fun _ => rfl, fun _ => rfl, rfl, fun job => rfl⟩
  unfold Zyphr.drainReplay Zyphr.processQueue
  induction waiting with
  | nil => rfl
  | cons j js ih => simp only [List.map_cons, List.cons.injEq, true_and]; exact ih

/-- Claim C9: with a scenario value other than 1 and 2, a call made while
the record is OPEN and the reset timeout has not elapsed is neither
rejected nor queued: it falls through and is attempted against the
transport adapter as if the circuit were closed. -/
theorem c9_unknown_scenario_falls_through (opts : Zyphr.Options) (now : Int)
    (transportOk : Bool) (method url : String) (cs : Zyphr.CircuitState)
    (h1 : opts.scenario ≠ 1) (h2 : opts.scenario ≠ 2)
    (ho : cs.state = Zyphr.Phase.OPEN)
    (ht : ¬ opts.resetTimeout < now - Zyphr.timeVal cs.lastFailureTime)
    (hm : Zyphr.validMethod method = true) :
    (Zyphr.fireRequest opts now transportOk method url cs).queued = []
  ∧ (Zyphr.fireRequest opts now transportOk method url cs).result ≠
      Zyphr.FireResult.gatedError
  ∧ (Zyphr.fireRequest opts now transportOk method url cs).result ≠
      Zyphr.FireResult.gatedQueued
  ∧ (Zyphr.fireRequest opts now transportOk method url cs).transportCalled = true := by
  have hfr : Zyphr.fireRequest opts now transportOk method url cs =
      Zyphr.attempt opts now transportOk method cs [] := by
    unfold Zyphr.fireRequest
    rw [if_pos ho, if_neg ht, if_neg h1, if_neg h2]
  have hreq := Zyphr.request_valid transportOk method hm
  rw [hfr]
  refine ⟨?_, ?_, ?_, Zyphr.attempt_transportCalled _ _ _ _ _ _ hreq⟩ <;>
    (unfold Zyphr.attempt; rw [hreq]; unfold Zyphr.transportResult;
     cases transportOk <;> simp)

/-- Sample configuration with the unrecognized scenario value 3. -/
def sampleOptionsS3 : Zyphr.Options :=
  { failureThreshold := 3, successThreshold := 2, resetTimeout := 100, scenario := 3 }

/-- Witness for C9: scenario 3, OPEN record opened at time 0, call at
time 50 (before the 100 ms timeout): nothing is queued or rejected and
the transport adapter is reached. -/
theorem c9_unknown_scenario_falls_through_witness :
    (Zyphr.fireRequest sampleOptionsS3 50 true "get" "/data" sampleOpen).queued = []
  ∧ (Zyphr.fireRequest sampleOptionsS3 50 true "get" "/data" sampleOpen).result ≠
      Zyphr.FireResult.gatedError
  ∧ (Zyphr.fireRequest sampleOptionsS3 50 true "get" "/data" sampleOpen).result ≠
      Zyphr.FireResult.gatedQueued
  ∧ (Zyphr.fireRequest sampleOptionsS3 50 true "get" "/data" sampleOpen).transportCalled = true :=
  c9_unknown_scenario_falls_through sampleOptionsS3 50 true "get" "/data" sampleOpen
    (by decide) (by decide) rfl (by decide) (by decide)
